import Mathlib

/-!
Verification of `elpais_scraper.py`.

The development shallowly embeds the scraping pipeline of the source file:
string helpers mirror the Python string operations used by the code
(`split`, `strip`, `startswith`, the `in` operator, `str.lower`,
`re.findall` with the pattern `\b[a-zA-Z]+\b`), and the page/driver side is
modelled by explicit data: an article node records the outcomes of the
element queries the code performs on it, a driver records whether
navigation and the article wait succeed, and the external collaborators
(translation client, HTTP GET) are passed as `Except`-valued functions,
`Except.error` standing for a raised exception.
-/

/-! ## Python string primitives (over `List Char`) -/

/-- Whitespace stripped by Python `str.strip()` (the ASCII cases). -/
def pyIsSpace (c : Char) : Bool :=
  c == ' ' || c == '\t' || c == '\n' || c == '\r' || c == '\x0b' || c == '\x0c'

/-- Python `s.strip()` on a character list: drop whitespace at both ends. -/
def pyStrip (l : List Char) : List Char :=
  ((l.dropWhile pyIsSpace).reverse.dropWhile pyIsSpace).reverse

/-- Python `s.strip()` on strings. -/
def pyStripStr (s : String) : String :=
  String.mk (pyStrip s.data)

/-- Python `s.split(sep)[0]` for a one-character separator: the prefix of
the string before the first occurrence of `sep`. -/
def splitFirst (sep : Char) (l : List Char) : List Char :=
  l.takeWhile (fun c => c != sep)

/-- Does `pat` occur as a contiguous sublist of the second argument? -/
def containsSub (pat : List Char) : List Char → Bool
  | [] => pat.isEmpty
  | c :: rest => pat.isPrefixOf (c :: rest) || containsSub pat rest

/-- Python `pat in s` (substring containment). -/
def pyContains (s pat : String) : Bool :=
  containsSub pat.data s.data

/-- Python `s.startswith(pre)`. -/
def pyStartsWith (s pre : String) : Bool :=
  pre.data.isPrefixOf s.data

/-- Python `s.lower()` (the ASCII cases, which cover every input used by the
claims). -/
def pyLower (s : String) : String :=
  String.mk (s.data.map Char.toLower)

/-- The srcset clean-up of lines 227 and 253 of the source:
`value.split(',')[0].strip().split(' ')[0]`. -/
def cleanFirstCandidate (s : String) : String :=
  String.mk ((pyStrip (splitFirst ',' s.data)).takeWhile (fun c => c != ' '))

/-- Python truthiness of the `article_image_url` variable: `None` and the
empty string are falsy. -/
def truthyStr : Option String → Bool
  | none => false
  | some s => !(s == "")

/-! ## HeadlineAnalyzer (lines 303-314 of the source) -/

/-- A word character of the regex metaclass `\w` (the ASCII cases), used by
the `\b` boundaries of the pattern `\b[a-zA-Z]+\b`. -/
def isWordChar (c : Char) : Bool :=
  c.isAlphanum || c == '_'

/-- One pass of `re.findall(r'\b[a-zA-Z]+\b', s)` over the character list.
`cur` is the alphabetic run currently being read (in reverse), and `prevW`
records whether the previous character was a word character (so a run
started next to it would fail its left `\b` boundary). A finished run is a
match only when the character after it is not a word character (its right
`\b` boundary). -/
def wordsGo : List Char → Option (List Char) → Bool → List String
  | [], cur, _ =>
    match cur with
    | some run => [String.mk run.reverse]
    | none => []
  | c :: rest, cur, prevW =>
    if c.isAlpha then
      match cur with
      | some run => wordsGo rest (some (c :: run)) true
      | none =>
        if prevW then wordsGo rest none true
        else wordsGo rest (some [c]) true
    else
      (match cur with
       | some run => if isWordChar c then [] else [String.mk run.reverse]
       | none => []) ++ wordsGo rest none (isWordChar c)

/-- `re.findall(r'\b[a-zA-Z]+\b', s)` (line 309 of the source). -/
def reFindWords (s : String) : List String :=
  wordsGo s.data none false

/-- One insertion into the word-count table; `collections.Counter` counts
into an insertion-ordered dict, modelled as an association list in
first-seen order. -/
def addWord (acc : List (String × Nat)) (w : String) : List (String × Nat) :=
  if acc.any (fun p => p.1 == w) then
    acc.map (fun p => if p.1 == w then (p.1, p.2 + 1) else p)
  else acc ++ [(w, 1)]

/-- `collections.Counter(all_words)` in first-seen order (line 312). -/
def counter (ws : List String) : List (String × Nat) :=
  ws.foldl addWord []

/-- Lines 306-314 of the source: lowercase each header, tokenize it with
`re.findall(r'\b[a-zA-Z]+\b', ...)`, count all words, and keep the words
with count greater than 2. -/
def analyzeHeaders (headers : List String) : List (String × Nat) :=
  let allWords := headers.foldl (fun acc h => acc ++ reFindWords (pyLower h)) []
  (counter allWords).filter (fun p => p.2 > 2)

/-- The concrete headline batch named by the specification. -/
def demoHeadlines : List String :=
  ["Storm hits city", "City storm warning issued", "Storm storm everywhere city"]


/-! ## Page model

An article node records the outcome of each element query the source
performs on it. `none` models the query raising (`NoSuchElementException`
and friends), which every extraction site of the source catches. -/

/-- An `img` element, restricted to the three attributes the source reads
(line 243: `["data-srcset", "data-src", "src"]`). `none` models
`get_attribute` returning `None`. -/
structure ImgElement where
  dataSrcset : Option String
  dataSrc : Option String
  src : Option String
deriving DecidableEq

/-- `img_element.get_attribute(attr)` for the attribute names the source
uses. -/
def ImgElement.getAttribute (e : ImgElement) : String → Option String
  | "data-srcset" => e.dataSrcset
  | "data-src" => e.dataSrc
  | "src" => e.src
  | _ => none

/-- A `picture` element: the `srcset` attribute of each of its `source`
children (line 222), and its inner `img` child if one exists (line 230). -/
structure PictureEl where
  sources : List (Option String)
  img : Option ImgElement
deriving DecidableEq

/-- One article node, carrying the outcome of every query lines 182-248
perform on it. `broken` models a node handle on which processing raises an
exception that none of the inner handlers catch (e.g. a stale element),
which is caught only by the per-article handler at line 299. -/
structure ArticleElement where
  broken : Bool
  h2Text : Option String
  pCdText : Option String
  divCdpText : Option String
  mediaImg : Option ImgElement
  picture : Option PictureEl
  anyImg : Option ImgElement
deriving DecidableEq

/-! ## FieldExtractor (lines 182-203) -/

/-- Lines 182-189: take the `h2` child's stripped text; if the query
raises, catch and use the sentinel. The function is total: no exception
propagates out of the title step. -/
def extractTitle (a : ArticleElement) : String :=
  match a.h2Text with
  | some t => pyStripStr t
  | none => "Title not found"

/-- Lines 191-202: `p.c_d`, then `div.c_d_p`, then the fixed sentinel. -/
def extractContent (a : ArticleElement) : String :=
  match a.pCdText with
  | some t => pyStripStr t
  | none =>
    match a.divCdpText with
    | some t => pyStripStr t
    | none => "Content summary not easily scraped from this section."

/-! ## ImageResolver (lines 205-274) -/

/-- Line 243 of the source. -/
def possibleSrcAttrs : List String := ["data-srcset", "data-src", "src"]

/-- Lines 244-248: first attribute among `possible_src_attrs` whose value
is truthy and contains `"http"`. -/
def firstHttpAttr (e : ImgElement) : Option String :=
  possibleSrcAttrs.findSome? (fun attr =>
    match e.getAttribute attr with
    | some t => if pyContains t "http" then some t else none
    | none => none)

/-- Lines 223-228: scan the `source` children of a `picture`; on the first
truthy `srcset` containing `"http"`, assign the cleaned first candidate and
break. -/
def scanSources : List (Option String) → Option String
  | [] => none
  | srcset :: rest =>
    match srcset with
    | some s => if pyContains s "http" then some (cleanFirstCandidate s) else scanSources rest
    | none => scanSources rest

/-- The two locals of the resolution block: `img_element` and
`article_image_url` as they stand after line 248. -/
structure ResolveOut where
  img : Option ImgElement
  url : Option String
deriving DecidableEq

/-- Lines 206-248: the three resolution attempts followed by the attribute
read. Each inner `try` that fails leaves the locals unchanged (`except:
pass`), and the truthiness tests mirror Python (`if not img_element`,
`if not article_image_url`). -/
def resolveImage (a : ArticleElement) : ResolveOut :=
  let st2 : ResolveOut :=
    match a.mediaImg with
    | some e => ⟨some e, none⟩
    | none =>
      match a.picture with
      | none => ⟨none, none⟩
      | some p =>
        let u := scanSources p.sources
        if truthyStr u then ⟨none, u⟩ else ⟨p.img, u⟩
  let img3 : Option ImgElement :=
    match st2.img with
    | some e => some e
    | none => if truthyStr st2.url then none else a.anyImg
  let url3 : Option String :=
    match img3 with
    | some e =>
      match firstHttpAttr e with
      | some t => some t
      | none => st2.url
    | none => st2.url
  ⟨img3, url3⟩

/-- Lines 250-253: the final guard `article_image_url and
article_image_url.startswith("http")`. When it holds, the comma clean-up is
applied and a download of the resulting URL is attempted (second component
`true`); otherwise the value is kept as it stands and no download happens. -/
def finalUrlAndDownload (raw : Option String) : Option String × Bool :=
  match raw with
  | some u =>
    if truthyStr (some u) && pyStartsWith u "http" then
      let u2 := if pyContains u "," then cleanFirstCandidate u else u
      (some u2, true)
    else (some u, false)
  | none => (none, false)

/-- The body of the image `try` block (lines 207-272) before its handler:
resolution, then the guarded `requests.get`. The error carries the state
(`article_image_url`, image-saved flag) at the raise point; the success
value is the same pair. The image is saved exactly when the GET returns
status 200 (lines 265-267). -/
def imageBlockBody (a : ArticleElement) (gt : String → Except Unit Nat) :
    Except (Unit × Option String × Bool) (Option String × Bool) :=
  let fa := finalUrlAndDownload (resolveImage a).url
  if fa.2 then
    match fa.1 with
    | some u =>
      match gt u with
      | Except.ok code => Except.ok (some u, code == 200)
      | Except.error e => Except.error (e, some u, false)
    | none => Except.ok (none, false)
  else Except.ok (fa.1, false)

/-- Lines 205-274 with the handler at line 273: any exception of the block
is caught (only logged), leaving the locals at their value at the raise
point. Returns (`article_image_url`, whether the image file was saved). -/
def imageStep (a : ArticleElement) (gt : String → Except Unit Nat) :
    Option String × Bool :=
  match imageBlockBody a gt with
  | Except.ok r => r
  | Except.error (_, url, saved) => (url, saved)

/-! ## Translation step (lines 277-290) -/

/-- Lines 277-290. `client` is the global `translate_client` (`none` when
not configured); a configured client is a function that may raise. Returns
(`translated_title`, the value appended to `all_translated_headers` if
any). The header is appended only on a successful translation (line 285). -/
def translateStep (client : Option (String → Except Unit String)) (title : String) :
    String × Option String :=
  match client with
  | some tr =>
    if title != "Title not found" then
      match tr title with
      | Except.ok t => (t, some t)
      | Except.error _ => ("Translation failed", none)
    else ("", none)
  | none => ("", none)

/-! ## ArticlePipeline (lines 151-323) -/

/-- One article record as appended at lines 292-297. -/
structure ArticleRecord where
  title_spanish : String
  content_spanish : String
  image_url : Option String
  title_english : String
deriving DecidableEq

/-- Lines 181-297, the body of the per-article `try`: a broken node raises
(caught by the caller); otherwise the record, the header appended to
`all_translated_headers` (if any), and the image-saved flag are produced. -/
def processArticle (client : Option (String → Except Unit String))
    (gt : String → Except Unit Nat) (a : ArticleElement) :
    Except Unit (ArticleRecord × Option String × Bool) :=
  if a.broken then Except.error () else
  Except.ok ({ title_spanish := extractTitle a,
               content_spanish := extractContent a,
               image_url := (imageStep a gt).1,
               title_english := (translateStep client (extractTitle a)).1 },
             (translateStep client (extractTitle a)).2,
             (imageStep a gt).2)

/-- The record contributed by one node: `some` its record, or `none` when
processing the node raised and the handler at lines 299-301 skipped it. -/
def recOf (client : Option (String → Except Unit String))
    (gt : String → Except Unit Nat) (a : ArticleElement) : Option ArticleRecord :=
  match processArticle client gt a with
  | Except.ok (rec, _, _) => some rec
  | Except.error _ => none

/-- The header contributed by one node to `all_translated_headers`. -/
def hdrOf (client : Option (String → Except Unit String))
    (gt : String → Except Unit Nat) (a : ArticleElement) : Option String :=
  match processArticle client gt a with
  | Except.ok (_, hdr, _) => hdr
  | Except.error _ => none

/-- One iteration of the loop at line 175, accumulating
(`scraped_articles_data`, `all_translated_headers`); an exception in the
body is caught at line 299 and the iteration contributes nothing. -/
def processStep (client : Option (String → Except Unit String))
    (gt : String → Except Unit Nat)
    (acc : List ArticleRecord × List String) (a : ArticleElement) :
    List ArticleRecord × List String :=
  match processArticle client gt a with
  | Except.ok (rec, hdr, _) => (acc.1 ++ [rec], acc.2 ++ hdr.toList)
  | Except.error _ => acc

/-- Lines 172-301: `for i, article_element in enumerate(articles_elements[:5])`. -/
def processArticles (client : Option (String → Except Unit String))
    (gt : String → Except Unit Nat) (articles : List ArticleElement) :
    List ArticleRecord × List String :=
  (articles.take 5).foldl (processStep client gt) ([], [])

/-- A driver session: whether `driver.get` succeeds, whether the
`WebDriverWait` for an `article` element succeeds within its timeout, and
the article nodes `find_elements` then returns. -/
structure Driver where
  navOk : Bool
  articlesLoaded : Bool
  articles : List ArticleElement

/-- Outcome of `scrape_and_process_articles`: the early `return` of the
timeout handler (line 167), or the completed run with its records, its
translated headers, and the repeated-words table of lines 303-314. -/
inductive ScrapeOutcome
  | aborted
  | completed (records : List ArticleRecord) (headers : List String)
      (repeated : List (String × Nat))
deriving DecidableEq

/-- Lines 151-323. A navigation failure propagates (nothing catches it
inside the function); a wait timeout is caught at lines 165-167 and the
function returns normally having scraped nothing. -/
def scrape_and_process_articles (client : Option (String → Except Unit String))
    (gt : String → Except Unit Nat) (d : Driver) : Except Unit ScrapeOutcome :=
  if !d.navOk then Except.error () else
  if !d.articlesLoaded then Except.ok ScrapeOutcome.aborted
  else
    let rh := processArticles client gt d.articles
    Except.ok (ScrapeOutcome.completed rh.1 rh.2
      (if rh.2.isEmpty then [] else analyzeHeaders rh.2))

/-! ## SessionRunner (lines 326-343) -/

/-- One remote environment as `run_browserstack_test` sees it: the outcome
of `get_webdriver_browserstack(config)`, and whether each of the two
`execute_script` status calls raises. -/
structure Env where
  acquire : Except Unit Driver
  execPassedFails : Bool
  execFailedFails : Bool

/-- Observable actions of `run_browserstack_test`: a session status
reported to BrowserStack (`true` = "passed", `false` = "failed"), and a
`driver.quit()` call. -/
inductive Event
  | reported (passed : Bool)
  | quit
deriving DecidableEq

/-- Is this event a `driver.quit()` call? -/
def isQuit : Event → Bool
  | Event.quit => true
  | _ => false

/-- Number of `driver.quit()` calls in a trace. -/
def quitCount (evs : List Event) : Nat :=
  (evs.filter isQuit).length

/-- Lines 326-343: acquire, scrape, mark passed; any exception is caught
and the session marked failed (only if a driver exists); the `finally`
quits the driver exactly when one was acquired. Returns the event trace and
whether an exception escaped the function (possible only when the
failed-status `execute_script` raises inside the `except` block). -/
def run_browserstack_test (client : Option (String → Except Unit String))
    (gt : String → Except Unit Nat) (env : Env) : List Event × Bool :=
  match env.acquire with
  | Except.error _ => ([], false)
  | Except.ok d =>
    let body : List Event × Bool :=
      match scrape_and_process_articles client gt d with
      | Except.ok _ =>
        if env.execPassedFails then
          if env.execFailedFails then ([], true)
          else ([Event.reported false], false)
        else ([Event.reported true], false)
      | Except.error _ =>
        if env.execFailedFails then ([], true)
        else ([Event.reported false], false)
    (body.1 ++ [Event.quit], body.2)



/-! ## Fixtures -/

/-- A GET collaborator that always answers status 200. -/
def gtOk200 : String → Except Unit Nat := fun _ => Except.ok 200

/-- A GET collaborator that always answers status 404. -/
def gt404 : String → Except Unit Nat := fun _ => Except.ok 404

/-- A translation collaborator that always raises. -/
def trFail : String → Except Unit String := fun _ => Except.error ()

/-- An article node whose only image markup is a `picture` whose `source`
has `srcset="a.jpg 1x, http://b.jpg 2x"`: a candidate list whose first
entry is relative while a later one is absolute. -/
def relativeSrcsetArticle : ArticleElement :=
  { broken := false, h2Text := some "T", pCdText := none, divCdpText := none,
    mediaImg := none,
    picture := some { sources := [some "a.jpg 1x, http://b.jpg 2x"], img := none },
    anyImg := none }

/-- An article node whose image carries
`data-srcset="http://a.jpg 1x, http://b.jpg 2x"`. -/
def responsiveSrcsetArticle : ArticleElement :=
  { broken := false, h2Text := some "T", pCdText := none, divCdpText := none,
    mediaImg := some { dataSrcset := some "http://a.jpg 1x, http://b.jpg 2x",
                       dataSrc := none, src := none },
    picture := none, anyImg := none }

/-- An article node with a Spanish title and no image markup. -/
def holaArticle : ArticleElement :=
  { broken := false, h2Text := some "Hola", pCdText := none, divCdpText := none,
    mediaImg := none, picture := none, anyImg := none }

/-- An article node with no heading element. -/
def noHeadingArticle : ArticleElement :=
  { broken := false, h2Text := none, pCdText := none, divCdpText := none,
    mediaImg := none, picture := none, anyImg := none }

/-- A driver whose article wait times out. -/
def timeoutDriver : Driver := { navOk := true, articlesLoaded := false, articles := [] }

/-- A remote environment that acquires `timeoutDriver` and whose status
scripts do not raise. -/
def timeoutEnv : Env :=
  { acquire := Except.ok timeoutDriver, execPassedFails := false, execFailedFails := false }

/-! ## Helper lemmas -/

/-- Unrolling the per-article loop: starting from any accumulator, the loop
produces exactly one optional record and one optional header per node,
each depending only on that node. -/
lemma foldl_processStep (client : Option (String → Except Unit String))
    (gt : String → Except Unit Nat) :
    ∀ (l : List ArticleElement) (acc : List ArticleRecord × List String),
      l.foldl (processStep client gt) acc =
        (acc.1 ++ l.filterMap (recOf client gt), acc.2 ++ l.filterMap (hdrOf client gt)) := by
  intro l
  induction l with
  | nil => intro acc; simp
  | cons a l ih =>
    intro acc
    rw [List.foldl_cons, ih]
    rcases h : processArticle client gt a with e | ⟨rec, hdr, sv⟩
    · simp [processStep, recOf, hdrOf, h]
    · rcases hdr with _ | x <;>
        simp [processStep, recOf, hdrOf, h]

/-- The pipeline loop in closed form: the first five nodes, each
contributing independently. -/
lemma processArticles_eq (client : Option (String → Except Unit String))
    (gt : String → Except Unit Nat) (arts : List ArticleElement) :
    processArticles client gt arts =
      ((arts.take 5).filterMap (recOf client gt),
       (arts.take 5).filterMap (hdrOf client gt)) := by
  simpa [processArticles] using foldl_processStep client gt (arts.take 5) ([], [])

/-- `split(',')[0]` keeps an `http` prefix. -/
lemma take_comma_http (rest : List Char) :
    ('h' :: 't' :: 't' :: 'p' ::rest).takeWhile (fun c => c != ',') =
      'h' :: 't' :: 't' :: 'p' ::(rest.takeWhile (fun c => c != ',')) := rfl

/-- Leading whitespace stripping keeps an `http` prefix. -/
lemma drop_space_http (rest : List Char) :
    ('h' :: 't' :: 't' :: 'p' ::rest).dropWhile pyIsSpace = 'h' :: 't' :: 't' :: 'p' ::rest := rfl

/-- `split(' ')[0]` keeps an `http` prefix. -/
lemma take_space_http (rest : List Char) :
    ('h' :: 't' :: 't' :: 'p' ::rest).takeWhile (fun c => c != ' ') =
      'h' :: 't' :: 't' :: 'p' ::(rest.takeWhile (fun c => c != ' ')) := rfl

/-- `['h','t','t','p']` is a Boolean prefix of any list it heads. -/
lemma isPrefixOf_http (rest : List Char) :
    List.isPrefixOf ('h' :: 't' :: 't' :: 'p' ::[]) ('h' :: 't' :: 't' :: 'p' ::rest) = true := by
  rw [List.isPrefixOf_iff_prefix]
  exact ⟨rest, rfl⟩

/-- `strip()` keeps an `http` prefix. -/
lemma pyStrip_http (m : List Char) :
    ∃ k, pyStrip ('h' :: 't' :: 't' :: 'p' ::m) = 'h' :: 't' :: 't' :: 'p' ::k := by
  unfold pyStrip
  rw [drop_space_http]
  have hrev : ('h' :: 't' :: 't' :: 'p' ::m).reverse = m.reverse ++ ['p','t','t','h'] := by
    simp
  rw [hrev, List.dropWhile_append]
  by_cases he : (m.reverse.dropWhile pyIsSpace).isEmpty = true
  · rw [if_pos he]
    exact ⟨[], by decide⟩
  · rw [if_neg he]
    refine ⟨(m.reverse.dropWhile pyIsSpace).reverse, ?_⟩
    simp

/-- The srcset clean-up of line 253 keeps an `http` prefix. -/
lemma clean_preserves_http (s : String) (h : pyStartsWith s "http" = true) :
    pyStartsWith (cleanFirstCandidate s) "http" = true := by
  have hpre : ("http".data) <+: s.data := by
    rw [pyStartsWith, List.isPrefixOf_iff_prefix] at h
    exact h
  obtain ⟨rest, hrest⟩ := hpre
  have hs : s.data = 'h' :: 't' :: 't' :: 'p' ::rest := by rw [← hrest]; rfl
  unfold cleanFirstCandidate splitFirst
  rw [hs, take_comma_http]
  obtain ⟨k, hk⟩ := pyStrip_http (rest.takeWhile (fun c => c != ','))
  rw [hk, take_space_http]
  exact isPrefixOf_http _

/-! ## Claims -/

/-- Claim C1, counterexample: on the spec's own headline batch the word
"storm" occurs 4 times (once, once, twice), not 3, so the analysis table is
not the claimed one. -/
theorem headline_demo_storm_is_not_three :
    (analyzeHeaders demoHeadlines).lookup "storm" = some 4 ∧
    ¬ ((analyzeHeaders demoHeadlines).lookup "storm" = some 3) := by
  decide

/-- Claim C1, amended: on the headlines `["Storm hits city", "City storm
warning issued", "Storm storm everywhere city"]`, the analysis (lowercase,
alphabetic-run tokens, count, keep counts greater than 2) yields exactly
the table mapping "storm" to 4 and "city" to 3, excluding "warning" and
"issued". -/
theorem headline_demo_analysis :
    analyzeHeaders demoHeadlines = [("storm", 4), ("city", 3)] ∧
    (analyzeHeaders demoHeadlines).lookup "warning" = none ∧
    (analyzeHeaders demoHeadlines).lookup "issued" = none := by
  decide

/-- Claim C2, counterexample: with a session whose article wait times out,
the pipeline aborts, yet `run_browserstack_test` reports the session as
PASSED (the timeout is swallowed at lines 165-167, so no exception reaches
the `except` that would mark it failed). -/
theorem timeout_session_reported_passed :
    scrape_and_process_articles none gtOk200 timeoutDriver = Except.ok ScrapeOutcome.aborted ∧
    (run_browserstack_test none gtOk200 timeoutEnv).1 = [Event.reported true, Event.quit] ∧
    ¬ (Event.reported false ∈ (run_browserstack_test none gtOk200 timeoutEnv).1) :=
  ⟨rfl, by decide, by decide⟩

/-- Claim C2, amended: if the bounded wait for an article element times
out, the pipeline run for that session is aborted (the function returns
early having scraped nothing), but no exception propagates, so for a remote
run `run_browserstack_test` records status passed and the process as a
whole continues (nothing escapes the runner). -/
theorem timeout_aborts_but_reports_passed (client : Option (String → Except Unit String))
    (gt : String → Except Unit Nat) (env : Env) (d : Driver)
    (hacq : env.acquire = Except.ok d) (hnav : d.navOk = true)
    (hload : d.articlesLoaded = false) (hexec : env.execPassedFails = false) :
    scrape_and_process_articles client gt d = Except.ok ScrapeOutcome.aborted ∧
    run_browserstack_test client gt env = ([Event.reported true, Event.quit], false) := by
  have hscr : scrape_and_process_articles client gt d = Except.ok ScrapeOutcome.aborted := by
    simp [scrape_and_process_articles, hnav, hload]
  refine ⟨hscr, ?_⟩
  simp [run_browserstack_test, hacq, hscr, hexec]

/-- Witness for the amended C2. -/
theorem timeout_aborts_but_reports_passed_witness :
    scrape_and_process_articles none gtOk200 timeoutDriver = Except.ok ScrapeOutcome.aborted ∧
    run_browserstack_test none gtOk200 timeoutEnv = ([Event.reported true, Event.quit], false) :=
  timeout_aborts_but_reports_passed none gtOk200 timeoutEnv timeoutDriver rfl rfl rfl rfl

/-- Claim C3, counterexample: from a `source` whose srcset is
`"a.jpg 1x, http://b.jpg 2x"` (it contains "http", so line 225 accepts it),
the stored candidate is the relative `"a.jpg"`; the appended record carries
`image_url = "a.jpg"`, which does not start with "http". -/
theorem record_can_store_relative_image_url :
    processArticle none gtOk200 relativeSrcsetArticle =
      Except.ok ({ title_spanish := "T",
                   content_spanish := "Content summary not easily scraped from this section.",
                   image_url := some "a.jpg", title_english := "" }, none, false) ∧
    pyStartsWith "a.jpg" "http" = false :=
  ⟨rfl, by decide⟩

/-- Claim C3, amended: the `startswith("http")` guard of line 250 protects
only the download: whenever a download is attempted the attempted (and
stored) URL starts with "http", but a record may still store a relative
`image_url` taken from a srcset candidate list when no download occurs. -/
theorem download_attempted_only_for_http_urls (a : ArticleElement)
    (gt : String → Except Unit Nat) (u : String)
    (h : finalUrlAndDownload (resolveImage a).url = (some u, true)) :
    pyStartsWith u "http" = true ∧ (imageStep a gt).1 = some u := by
  have h1 : (imageStep a gt).1 = some u := by
    rcases gtu : gt u with e | code <;>
      simp [imageStep, imageBlockBody, h, gtu]
  refine ⟨?_, h1⟩
  rcases hraw : (resolveImage a).url with _ | u0
  · rw [hraw] at h
    exact absurd h (by simp [finalUrlAndDownload])
  · rw [hraw] at h
    simp only [finalUrlAndDownload] at h
    by_cases hg : (truthyStr (some u0) && pyStartsWith u0 "http") = true
    · rw [if_pos hg] at h
      have hstart : pyStartsWith u0 "http" = true := (Bool.and_eq_true _ _ |>.mp hg).2
      simp only [Prod.mk.injEq, Option.some.injEq, and_true] at h
      by_cases hcomma : pyContains u0 "," = true
      · rw [if_pos hcomma] at h
        rw [← h]
        exact clean_preserves_http u0 hstart
      · rw [if_neg hcomma] at h
        rw [← h]
        exact hstart
    · rw [if_neg hg] at h
      simp at h

/-- Witness for the amended C3. -/
theorem download_attempted_only_for_http_urls_witness :
    pyStartsWith "http://a.jpg" "http" = true ∧
    (imageStep responsiveSrcsetArticle gtOk200).1 = some "http://a.jpg" :=
  download_attempted_only_for_http_urls responsiveSrcsetArticle gtOk200 "http://a.jpg" (by decide)

/-- Claim C4: an image whose resolved URL-bearing attribute value is
`"http://a.jpg 1x, http://b.jpg 2x"` resolves to exactly `"http://a.jpg"`:
the clean-up of lines 251-253 keeps the first candidate's URL token and
discards the density descriptor and later candidates, and the download is
attempted on that URL. -/
theorem srcset_resolution_takes_first_url (a : ArticleElement)
    (h : (resolveImage a).url = some "http://a.jpg 1x, http://b.jpg 2x") :
    finalUrlAndDownload (resolveImage a).url = (some "http://a.jpg", true) := by
  rw [h]; decide

/-- Witness for C4, via an image with
`data-srcset="http://a.jpg 1x, http://b.jpg 2x"`. -/
theorem srcset_resolution_takes_first_url_witness :
    finalUrlAndDownload (resolveImage responsiveSrcsetArticle).url =
      (some "http://a.jpg", true) :=
  srcset_resolution_takes_first_url responsiveSrcsetArticle (by decide)

/-- Claim C5: when the download GET raises (e.g. timeout) or returns a
non-200 status, the handler at line 273 contains the failure: `imageStep`
still returns (no exception escapes the image-handling step), the image is
not saved (flag `false`), and the per-article step still produces its
record with the saved-image flag false. -/
theorem download_failure_is_soft (a : ArticleElement)
    (gt : String → Except Unit Nat) (u : String)
    (hres : finalUrlAndDownload (resolveImage a).url = (some u, true))
    (hfail : gt u = Except.error () ∨ ∃ c, gt u = Except.ok c ∧ c ≠ 200) :
    imageStep a gt = (some u, false) ∧
    ∀ client, a.broken = false →
      processArticle client gt a =
        Except.ok ({ title_spanish := extractTitle a,
                     content_spanish := extractContent a,
                     image_url := some u,
                     title_english := (translateStep client (extractTitle a)).1 },
                   (translateStep client (extractTitle a)).2, false) := by
  have h1 : imageStep a gt = (some u, false) := by
    rcases hfail with he | ⟨c, hc, hne⟩
    · simp [imageStep, imageBlockBody, hres, he]
    · simp [imageStep, imageBlockBody, hres, hc]
      exact hne
  refine ⟨h1, ?_⟩
  intro client hb
  simp [processArticle, hb, h1]

/-- Witness for C5: a 404 response leaves the image unsaved. -/
theorem download_failure_is_soft_witness :
    imageStep responsiveSrcsetArticle gt404 = (some "http://a.jpg", false) :=
  (download_failure_is_soft responsiveSrcsetArticle gt404 "http://a.jpg" (by decide)
    (Or.inr ⟨404, rfl, by decide⟩)).1

/-- Claim C6: if the translation collaborator raises on one article's
title, that article's `translated_title` is the sentinel
"Translation failed", no header from it is appended (so the failed title
never reaches the word-frequency analysis, which runs over
`all_translated_headers` only), and every other node of the batch still
contributes its own record and header independently. -/
theorem translation_failure_isolated (tr : String → Except Unit String)
    (gt : String → Except Unit Nat) (arts : List ArticleElement)
    (a : ArticleElement) (hb : a.broken = false)
    (ht : extractTitle a ≠ "Title not found")
    (hfail : tr (extractTitle a) = Except.error ()) :
    (∃ rec, recOf (some tr) gt a = some rec ∧ rec.title_english = "Translation failed") ∧
    hdrOf (some tr) gt a = none ∧
    (processArticles (some tr) gt arts).1 = (arts.take 5).filterMap (recOf (some tr) gt) ∧
    (processArticles (some tr) gt arts).2 = (arts.take 5).filterMap (hdrOf (some tr) gt) := by
  have hbn : (extractTitle a != "Title not found") = true := bne_iff_ne.mpr ht
  have htr : translateStep (some tr) (extractTitle a) = ("Translation failed", none) := by
    simp [translateStep, hbn, hfail]
  refine ⟨⟨{ title_spanish := extractTitle a, content_spanish := extractContent a,
             image_url := (imageStep a gt).1, title_english := "Translation failed" },
           ?_, rfl⟩, ?_, ?_, ?_⟩
  · simp [recOf, processArticle, hb, htr]
  · simp [hdrOf, processArticle, hb, htr]
  · simp [processArticles_eq]
  · simp [processArticles_eq]

/-- Witness for C6. -/
theorem translation_failure_isolated_witness :
    ∃ rec, recOf (some trFail) gtOk200 holaArticle = some rec ∧
      rec.title_english = "Translation failed" :=
  (translation_failure_isolated trFail gtOk200 [holaArticle] holaArticle rfl
    (by decide) rfl).1

/-- Claim C7: the pipeline loop visits exactly the first five discovered
nodes (`articles_elements[:5]`), and the record list is the per-node
contributions of that prefix: a node whose processing raises (modelled by
`broken`, caught at line 299) contributes nothing while every other node of
the prefix still contributes its own record. -/
theorem bounded_prefix_and_per_node_isolation
    (client : Option (String → Except Unit String))
    (gt : String → Except Unit Nat) (arts : List ArticleElement) :
    (processArticles client gt arts).1 = (arts.take 5).filterMap (recOf client gt) ∧
    ∀ a : ArticleElement, recOf client gt { a with broken := true } = none := by
  constructor
  · simp [processArticles_eq]
  · intro a
    simp [recOf, processArticle]

/-- Claim C8: an article node whose `h2` query fails gets exactly the title
sentinel "Title not found"; `extractTitle` is total, so no exception leaves
the title step. -/
theorem missing_heading_yields_title_sentinel (a : ArticleElement)
    (h : a.h2Text = none) :
    extractTitle a = "Title not found" := by
  simp [extractTitle, h]

/-- Witness for C8. -/
theorem missing_heading_yields_title_sentinel_witness :
    extractTitle noHeadingArticle = "Title not found" :=
  missing_heading_yields_title_sentinel noHeadingArticle rfl

/-- Claim C9: in every run of `run_browserstack_test`, `driver.quit()` is
called exactly once when session acquisition produced a handle — whatever
the pipeline, the status scripts, or their combination did, including when
the failed-status script itself raises — and never when acquisition
raised. -/
theorem quit_exactly_once_iff_acquired (client : Option (String → Except Unit String))
    (gt : String → Except Unit Nat) (env : Env) :
    quitCount (run_browserstack_test client gt env).1 =
      (match env.acquire with
       | Except.ok _ => 1
       | Except.error _ => 0) := by
  rcases hacq : env.acquire with e | d
  · simp [run_browserstack_test, hacq, quitCount]
  · rcases hscr : scrape_and_process_articles client gt d with e | r <;>
      rcases hp : env.execPassedFails with _ | _ <;>
      rcases hf : env.execFailedFails with _ | _ <;>
      simp [run_browserstack_test, hacq, hscr, hp, hf, quitCount, isQuit, List.filter]

/-- Claim C10: when the translation client is not configured, or the title
is the "Title not found" sentinel, the record's `translated_title` is the
empty string — distinct from the "Translation failed" sentinel — and the
node contributes no header to the word-frequency analysis. -/
theorem unavailable_translation_yields_empty_string
    (client : Option (String → Except Unit String))
    (gt : String → Except Unit Nat) (a : ArticleElement)
    (hb : a.broken = false)
    (hcond : client = none ∨ extractTitle a = "Title not found") :
    (∃ rec saved, processArticle client gt a = Except.ok (rec, none, saved) ∧
        rec.title_english = "") ∧
    ("" : String) ≠ "Translation failed" ∧
    hdrOf client gt a = none := by
  have htr : translateStep client (extractTitle a) = ("", none) := by
    rcases hcond with hc | hc
    · simp [translateStep, hc]
    · rcases client with _ | tr
      · simp [translateStep]
      · simp [translateStep, hc]
  refine ⟨⟨{ title_spanish := extractTitle a, content_spanish := extractContent a,
             image_url := (imageStep a gt).1, title_english := "" },
           (imageStep a gt).2, ?_, rfl⟩, by decide, ?_⟩
  · simp [processArticle, hb, htr]
  · simp [hdrOf, processArticle, hb, htr]

/-- Witness for C10. -/
theorem unavailable_translation_yields_empty_string_witness :
    ∃ rec saved, processArticle none gtOk200 holaArticle = Except.ok (rec, none, saved) ∧
      rec.title_english = "" :=
  (unavailable_translation_yields_empty_string none gtOk200 holaArticle rfl (Or.inl rfl)).1
